import Mathlib

/-!
Verification of the Godot-Peek-MCP IPC fabric.

This file gives a shallow embedding, in Lean 4, of the parts of the
repository that the specification claims talk about:

* the Unix-socket lifecycle of the C++ `SocketServer` (start / stop),
* the auto-stop timers of the C++ `GodotPeekPlugin` and of the GDScript
  editor server (`_schedule_auto_stop` / `_on_auto_stop_timeout`),
* the output cursor of `MessageHandler::handle_get_output`,
* the Go adapter's startup-fault detector `checkStartupErrors` and the
  pending-retry logic of `GetRemoteSceneTree` / `GetRemoteNodeProperties`,
* the overrides side-file writer `writeOverrides`,
* the project-name sanitisation in Go (`sanitizeProjectName`) and C++
  (`get_project_socket_path`),
* the breakpoint bookkeeping of `GodotPeekDebuggerPlugin`, and
* the `handle_debug_step` request handler.

Pure functions of the source become Lean functions; stateful code becomes
explicit state passing over small state structures, with ghost fields
(documented as such) used only to observe events for temporal claims.
External effects (filesystem, syscalls, editor widgets) are modelled as
explicit inputs and event logs.
-/

namespace GodotPeek

/-! ## C1: SocketServer start/stop lifecycle (extension/src/socket_server.cpp) -/

/-- The world `SocketServer::start` and `SocketServer::stop` interact with:
whether the socket file exists at the requested path, whether another
process currently accepts connections on it (what the `is_socket_alive`
probe observes), and whether the `socket` / `bind` / `listen` syscalls
succeed. -/
structure SockWorld where
  fileExists : Bool
  listenerAlive : Bool
  socketCreateOk : Bool
  bindOk : Bool
  listenOk : Bool
deriving Repr, DecidableEq

/-- Filesystem events performed on the socket path. `unlinkFile` is an
`unlink` call; `bindFile` is a successful `bind`, which creates the file. -/
inductive FsEvent where
  | unlinkFile
  | bindFile
deriving Repr, DecidableEq

/-- The state of a `SocketServer` object (fields of the C++ class that the
start/stop logic reads and writes; the client list is irrelevant to the
lifecycle claims and is omitted). -/
structure SocketServer where
  server_fd : Int
  owns_socket : Bool
  socket_path : String
deriving Repr, DecidableEq

/-- Freshly constructed `SocketServer` (constructor defaults of the class). -/
def SocketServer.init : SocketServer :=
  { server_fd := -1, owns_socket := false, socket_path := "" }

/-- `is_socket_alive(path)`: open a probe socket and `connect` to the path.
The connect succeeds exactly when the file exists and a live process accepts
connections on it. -/
def is_socket_alive (w : SockWorld) : Bool :=
  w.fileExists && w.listenerAlive

/-- `SocketServer::start(path)` translated from socket_server.cpp lines
63-126.  Returns the boolean result, the new object state, the new world,
and the list of filesystem events performed on the path. -/
def SocketServer.start (s : SocketServer) (path : String) (w : SockWorld) :
    Bool × SocketServer × SockWorld × List FsEvent :=
  let s1 : SocketServer := { s with socket_path := path }
  -- access(path, F_OK) == 0 && is_socket_alive(path): refuse to steal
  if w.fileExists && is_socket_alive w then
    (false, s1, w, [])
  else if !w.socketCreateOk then
    -- socket() failed: server_fd < 0, nothing touched on disk
    (false, { s1 with server_fd := -1 }, w, [])
  else
    -- socket() succeeded; remove any stale file, then bind
    let s2 : SocketServer := { s1 with server_fd := 3 }
    let w1 : SockWorld := { w with fileExists := false }
    if w.bindOk then
      -- bind creates the socket file on disk
      let w2 : SockWorld := { w1 with fileExists := true }
      if w.listenOk then
        (true, { s2 with owns_socket := true }, w2,
          [FsEvent.unlinkFile, FsEvent.bindFile])
      else
        -- listen failed: close fd, unlink the file we just created
        (false, { s2 with server_fd := -1 },
          { w2 with fileExists := false },
          [FsEvent.unlinkFile, FsEvent.bindFile, FsEvent.unlinkFile])
    else
      -- bind failed: close fd; the stale file stays unlinked
      (false, { s2 with server_fd := -1 }, w1, [FsEvent.unlinkFile])

/-- `SocketServer::stop()` translated from socket_server.cpp lines 128-147.
Closes the descriptor and unlinks the socket file only when `owns_socket`
is set. -/
def SocketServer.stop (s : SocketServer) (w : SockWorld) :
    SocketServer × SockWorld × List FsEvent :=
  let s1 : SocketServer := { s with server_fd := -1 }
  if s.owns_socket && !(s.socket_path == "") then
    ({ s1 with owns_socket := false, socket_path := "" },
      { w with fileExists := false }, [FsEvent.unlinkFile])
  else
    ({ s1 with socket_path := "" }, w, [])

/-- C1: on a path where another process already accepts connections,
`start` returns false, performs no filesystem event (no unlink, no bind),
leaves the world unchanged and does not take ownership; and `stop` on a
server that does not own the socket performs no unlink and leaves the file
exactly as it was. -/
theorem claim_C1 (s : SocketServer) (path : String) (w : SockWorld)
    (hfile : w.fileExists = true) (halive : w.listenerAlive = true) :
    (s.start path w).1 = false ∧
    (s.start path w).2.2.1 = w ∧
    (s.start path w).2.2.2 = [] ∧
    (s.start path w).2.1.owns_socket = s.owns_socket ∧
    (∀ s' w', s'.owns_socket = false →
      (SocketServer.stop s' w').2.1 = w' ∧ (SocketServer.stop s' w').2.2 = []) := by
  refine ⟨?_, ?_, ?_, ?_, ?_⟩
  · simp [SocketServer.start, is_socket_alive, hfile, halive]
  · simp [SocketServer.start, is_socket_alive, hfile, halive]
  · simp [SocketServer.start, is_socket_alive, hfile, halive]
  · simp [SocketServer.start, is_socket_alive, hfile, halive]
  · intro s' w' hown
    constructor <;> simp [SocketServer.stop, hown]

/-- Witness for C1 at a concrete server, path and world. -/
theorem claim_C1_witness :
    (SockWorld.fileExists ⟨true, true, true, true, true⟩ = true) ∧
    ((SocketServer.init.start "/tmp/godot-peek-demo.sock"
        ⟨true, true, true, true, true⟩).1 = false ∧
      (SocketServer.init.start "/tmp/godot-peek-demo.sock"
        ⟨true, true, true, true, true⟩).2.2.2 = []) := by
  have h := claim_C1 SocketServer.init "/tmp/godot-peek-demo.sock"
    ⟨true, true, true, true, true⟩ rfl rfl
  exact ⟨rfl, h.1, h.2.2.1⟩

/-! ## C2: auto-stop timers

Two implementations exist in the repository: the C++ extension plugin
(`GodotPeekPlugin::_process`, godot_peek_plugin.cpp) with a plain countdown
and no launch counter, and the GDScript editor server (mcp_server.gd,
`_schedule_auto_stop` / `_on_auto_stop_timeout` / `_check_play_state`) with
the `_mcp_launch_id` counter.  Both are embedded. -/

/-- Editor-side play state as the C++ plugin model observes it.  `gen` and
`autoStops` are ghost instrumentation (they influence nothing): `gen`
counts scene play-starts, and `autoStops` logs, for each scene stopped by
the auto-stop countdown, the generation of the scene that got stopped. -/
structure CppEditor where
  playing : Bool
  gen : Nat
  autoStops : List Nat
deriving Repr, DecidableEq

/-- Auto-stop state of `GodotPeekPlugin` (godot_peek_plugin.cpp / .h).
`armedGen` is ghost instrumentation recording the play generation current
when the scene-launch callback last armed the countdown. -/
structure CppPlugin where
  auto_stop_timeout : Rat
  auto_stop_active : Bool
  armedGen : Nat
deriving Repr, DecidableEq

/-- Combined C++ plugin model state. -/
structure CppState where
  editor : CppEditor
  plugin : CppPlugin
deriving Repr, DecidableEq

/-- Events driving the C++ plugin model. -/
inductive CppEvent where
  /-- an MCP run_* handler: `editor->play_*_scene()` then
  `schedule_auto_stop`, whose callback arms the countdown when the
  timeout is positive and disables it otherwise -/
  | mcpRun (timeout : Rat)
  /-- `handle_stop_scene`: `editor->stop_playing_scene()` and nothing else -/
  | mcpStop
  /-- the user starts a scene from the editor UI (no MCP involvement) -/
  | userPlay
  /-- `GodotPeekPlugin::_process(delta)` -/
  | frame (delta : Rat)
deriving Repr

/-- One step of the C++ plugin model, translated from
`GodotPeekPlugin::_process` (auto-stop block) and the scene-launch callback
in the `GodotPeekPlugin` constructor, plus `handle_stop_scene`. -/
def cppStep (s : CppState) : CppEvent → CppState
  | CppEvent.mcpRun t =>
    let g := s.editor.gen + 1
    let ed : CppEditor := { s.editor with playing := true, gen := g }
    if 0 < t then
      { editor := ed,
        plugin := { auto_stop_timeout := t, auto_stop_active := true, armedGen := g } }
    else
      { editor := ed, plugin := { s.plugin with auto_stop_active := false } }
  | CppEvent.mcpStop =>
    { s with editor := { s.editor with playing := false } }
  | CppEvent.userPlay =>
    { s with
      editor := { s.editor with
        playing := true
        gen := s.editor.gen + 1 } }
  | CppEvent.frame d =>
    if s.plugin.auto_stop_active then
      let t := s.plugin.auto_stop_timeout - d
      if t ≤ 0 then
        let pl : CppPlugin := { s.plugin with
          auto_stop_timeout := t
          auto_stop_active := false }
        if s.editor.playing then
          { editor := { s.editor with
              playing := false
              autoStops := s.editor.autoStops ++ [s.editor.gen] },
            plugin := pl }
        else
          { s with plugin := pl }
      else
        { s with plugin := { s.plugin with auto_stop_timeout := t } }
    else
      s

/-- Run the C++ plugin model over an event list. -/
def cppRun (s : CppState) (evs : List CppEvent) : CppState :=
  evs.foldl cppStep s

/-- Initial C++ plugin model state: nothing playing, timer disabled. -/
def cppInit : CppState :=
  { editor := { playing := false, gen := 0, autoStops := [] },
    plugin := { auto_stop_timeout := 0, auto_stop_active := false, armedGen := 0 } }

/-- Counterexample to C2 as stated: in the C++ plugin, launch a scene with
a 5-second auto-stop, stop it manually via `stop_scene` (which bumps no
counter and cancels nothing), start a new scene from the editor UI, and let
the countdown elapse: the plugin stops the scene of generation 2 although
the countdown was armed for generation 1 — a timer armed for an earlier
launch stops a scene started afterwards. -/
theorem claim_C2_counterexample :
    (cppRun cppInit
        [CppEvent.mcpRun 5, CppEvent.mcpStop, CppEvent.userPlay,
         CppEvent.frame 5]).editor.autoStops = [2] ∧
    (cppRun cppInit
        [CppEvent.mcpRun 5, CppEvent.mcpStop, CppEvent.userPlay,
         CppEvent.frame 5]).plugin.armedGen = 1 ∧
    (1 : Nat) ≠ 2 := by
  refine ⟨?_, ?_, by decide⟩ <;>
    norm_num [cppRun, cppStep, cppInit]

/-- GDScript editor server state (mcp_server.gd).  The timer holds the
captured launch id and the remaining seconds of the scheduled
`SceneTreeTimer`.  `autoStops` is ghost instrumentation logging, for each
auto-stop that actually stopped the scene, the captured launch id together
with the value of `_mcp_launch_id` at firing time. -/
structure GdState where
  launch_id : Nat
  timer : Option (Nat × Rat)
  was_playing : Bool
  playing : Bool
  autoStops : List (Nat × Nat)
deriving Repr, DecidableEq

/-- Events driving the GDScript server model. -/
inductive GdEvent where
  /-- `_run_main_scene` / `_run_scene` / `_run_current_scene`: stop the
  playing scene if any, bump `_mcp_launch_id`, play, `_schedule_auto_stop` -/
  | runScene (timeout : Rat)
  /-- `_stop_scene` handler: stop the playing scene if any -/
  | stopScene
  /-- the user closes the game window -/
  | userStop
  /-- the user starts a scene from the editor UI -/
  | userPlay
  /-- one editor frame: `_check_play_state` runs, then the scheduled
  `SceneTreeTimer` advances by `delta` and fires `_on_auto_stop_timeout`
  with its captured launch id when it reaches zero -/
  | frame (delta : Rat)
deriving Repr

/-- `_schedule_auto_stop(timeout_seconds)` from mcp_server.gd: cancel any
existing timer, capture the current launch id, and schedule anew when the
timeout is positive. -/
def gdScheduleAutoStop (s : GdState) (timeout : Rat) : GdState :=
  if timeout ≤ 0 then { s with timer := none }
  else { s with timer := some (s.launch_id, timeout) }

/-- `_on_auto_stop_timeout(launch_id)` from mcp_server.gd: stop the scene
only when the captured id still equals `_mcp_launch_id` and a scene is
playing; the timer is cleared either way (a `SceneTreeTimer` is one-shot). -/
def gdOnAutoStopTimeout (s : GdState) (captured : Nat) : GdState :=
  let s1 : GdState := { s with timer := none }
  if captured ≠ s1.launch_id then s1
  else if !s1.playing then s1
  else
    { s1 with
      playing := false
      autoStops := s1.autoStops ++ [(captured, s1.launch_id)] }

/-- `_check_play_state` from mcp_server.gd: on a play-to-stop transition,
bump `_mcp_launch_id` and drop the pending timer. -/
def gdCheckPlayState (s : GdState) : GdState :=
  let s1 : GdState :=
    if s.was_playing && !s.playing then
      { s with launch_id := s.launch_id + 1, timer := none }
    else s
  { s1 with was_playing := s1.playing }

/-- The pending-timer countdown: the scheduled `SceneTreeTimer` advances by
`delta` each frame and fires `_on_auto_stop_timeout` with the captured
launch id when it reaches zero. -/
def gdTimerTick (s : GdState) (d : Rat) : GdState :=
  match s.timer with
  | none => s
  | some (cid, r) =>
    if r - d ≤ 0 then gdOnAutoStopTimeout s cid
    else { s with timer := some (cid, r - d) }

/-- One step of the GDScript server model. -/
def gdStep (s : GdState) : GdEvent → GdState
  | GdEvent.runScene t =>
    let s1 := if s.playing then { s with playing := false } else s
    let s2 := { s1 with launch_id := s1.launch_id + 1, playing := true }
    gdScheduleAutoStop s2 t
  | GdEvent.stopScene =>
    if s.playing then { s with playing := false } else s
  | GdEvent.userStop =>
    { s with playing := false }
  | GdEvent.userPlay =>
    { s with playing := true }
  | GdEvent.frame d =>
    gdTimerTick (gdCheckPlayState s) d

/-- Run the GDScript server model over an event list. -/
def gdRun (s : GdState) (evs : List GdEvent) : GdState :=
  evs.foldl gdStep s

/-- `_check_play_state` never logs an auto-stop. -/
theorem gdCheckPlayState_autoStops (s : GdState) :
    (gdCheckPlayState s).autoStops = s.autoStops := by
  simp only [gdCheckPlayState]
  split <;> rfl

/-- the guard notion: every logged auto-stop fired with captured id equal
to the current `_mcp_launch_id`. -/
def gdGuarded (s : GdState) : Prop :=
  ∀ p ∈ s.autoStops, p.1 = p.2

/-- `_on_auto_stop_timeout` preserves the guard: the only entry it can add
is logged under the guard `captured = _mcp_launch_id`. -/
theorem gdOnAutoStopTimeout_guard (s : GdState) (cid : Nat)
    (hs : gdGuarded s) : gdGuarded (gdOnAutoStopTimeout s cid) := by
  intro p hp
  simp only [gdOnAutoStopTimeout] at hp
  split at hp
  · exact hs p hp
  · split at hp
    · exact hs p hp
    · rename_i hcid hplay
      simp only at hp
      rcases List.mem_append.mp hp with h | h
      · exact hs p h
      · rcases List.mem_singleton.mp h with rfl
        simp only [ne_eq, Decidable.not_not] at hcid
        simpa using hcid

/-- The countdown preserves the guard. -/
theorem gdTimerTick_guard (s : GdState) (d : Rat)
    (hs : gdGuarded s) : gdGuarded (gdTimerTick s d) := by
  cases htm : s.timer with
  | none => simpa [gdTimerTick, htm] using hs
  | some cr =>
    obtain ⟨cid, r⟩ := cr
    simp only [gdTimerTick, htm]
    split
    · exact gdOnAutoStopTimeout_guard s cid hs
    · intro p hp
      exact hs p hp

/-- Every event of the GDScript server preserves the guard. -/
theorem gdStep_guard (s : GdState) (e : GdEvent)
    (hs : gdGuarded s) : gdGuarded (gdStep s e) := by
  cases e with
  | runScene t =>
    intro p hp
    apply hs
    simp only [gdStep, gdScheduleAutoStop] at hp
    split at hp <;> split at hp <;> simpa using hp
  | stopScene =>
    intro p hp
    apply hs
    simp only [gdStep] at hp
    split at hp <;> simpa using hp
  | userStop => intro p hp; apply hs; simpa [gdStep] using hp
  | userPlay => intro p hp; apply hs; simpa [gdStep] using hp
  | frame d =>
    have h1 : gdGuarded (gdCheckPlayState s) := by
      intro p hp
      rw [gdCheckPlayState_autoStops] at hp
      exact hs p hp
    exact gdTimerTick_guard (gdCheckPlayState s) d h1

/-- The guard holds along any trace of the GDScript server. -/
theorem gdRun_guard (s : GdState) (evs : List GdEvent)
    (hs : gdGuarded s) : gdGuarded (gdRun s evs) := by
  induction evs generalizing s with
  | nil => simpa [gdRun] using hs
  | cons e rest ih =>
    have h1 := gdStep_guard s e hs
    simpa [gdRun, List.foldl_cons] using ih (gdStep s e) h1

/-- C2 amended: in the GDScript editor server, (1) the timeout callback
stops a scene only when the launch counter captured at arming still equals
the current counter and only while a scene is playing — over any event
trace every logged auto-stop satisfies the guard; and (2) a manual
`stop_scene` of a playing scene followed by one frame (whose
`_check_play_state` observes the play-to-stop transition) bumps the launch
counter and clears the timer, so a stale timer cannot stop a scene started
afterwards.  The C++ extension plugin, by contrast, has no launch counter;
its countdown stops whatever scene is playing when it elapses (see the
counterexample). -/
theorem claim_C2 (s : GdState) (evs : List GdEvent)
    (hs : s.autoStops = []) (hw : s.was_playing = true) (hp : s.playing = true) :
    gdGuarded (gdRun s evs) ∧
    (∀ d, (gdStep (gdStep s GdEvent.stopScene) (GdEvent.frame d)).launch_id =
        s.launch_id + 1 ∧
      (gdStep (gdStep s GdEvent.stopScene) (GdEvent.frame d)).timer = none) := by
  constructor
  · exact gdRun_guard s evs (by simp [gdGuarded, hs])
  · intro d
    constructor <;>
      simp [gdStep, gdCheckPlayState, gdTimerTick, hp, hw]

/-- Witness for C2 amended: a launch armed with a 5-second timeout, a
manual stop, then a frame — the counter advances and the timer is gone. -/
theorem claim_C2_witness :
    ((⟨1, some (1, 5), true, true, []⟩ : GdState).autoStops = [] ∧
      (gdStep (gdStep (⟨1, some (1, 5), true, true, []⟩ : GdState)
          GdEvent.stopScene) (GdEvent.frame 1)).launch_id = 2 ∧
      (gdStep (gdStep (⟨1, some (1, 5), true, true, []⟩ : GdState)
          GdEvent.stopScene) (GdEvent.frame 1)).timer = none) := by
  have h := claim_C2 (⟨1, some (1, 5), true, true, []⟩ : GdState) [] rfl rfl rfl
  exact ⟨rfl, (h.2 1).1, (h.2 1).2⟩

/-! ## C3: the output cursor of `MessageHandler::handle_get_output`
(message_handler.cpp lines 215-267, `EditorControlFinder::last_output_length`) -/

/-- The reply body of `get_output`: the returned text, its length, and the
total parsed length of the panel. -/
structure OutReply where
  output : List Char
  len : Nat
  total_length : Nat
deriving Repr, DecidableEq

/-- `MessageHandler::handle_get_output` translated from message_handler.cpp:
`full_text` is the panel's parsed text, the cursor is
`control_finder->last_output_length`.  Returns the reply and the new cursor
value.  Note the source updates the cursor only under `clear`; when
`last_output_length >= full_length` the `new_only` text merely stays empty
— the stored cursor is never clamped. -/
def handleGetOutput (panel : List Char) (cursor : Nat) (new_only clear : Bool) :
    OutReply × Nat :=
  let full_length := panel.length
  let output_text :=
    if new_only then
      if cursor < full_length then panel.drop cursor else []
    else panel
  let cursor' := if clear then full_length else cursor
  ({ output := output_text, len := output_text.length, total_length := full_length },
    cursor')

/-- Operations on the output panel and its cursor: panel growth, a panel
reset (the user clears the Output dock), and a `get_output` call. -/
inductive OutOp where
  | append (txt : List Char)
  | panelClear
  | read (new_only clear : Bool)
deriving Repr

/-- Panel text plus the stored cursor. -/
structure OutState where
  panel : List Char
  cursor : Nat
deriving Repr, DecidableEq

/-- One step: how each operation changes the panel/cursor pair. -/
def outStep (s : OutState) : OutOp → OutState
  | OutOp.append t => { s with panel := s.panel ++ t }
  | OutOp.panelClear => { s with panel := [] }
  | OutOp.read n c => { s with cursor := (handleGetOutput s.panel s.cursor n c).2 }

/-- Run a sequence of output-panel operations. -/
def outRun (s : OutState) (ops : List OutOp) : OutState :=
  ops.foldl outStep s

/-- Counterexample to C3 as stated: write 11 characters, `get_output` with
`clear=true` (cursor becomes 11), then clear the panel: the stored cursor
is 11 while the parsed length is 0, and even a following
`get_output(new_only=true)` leaves the cursor at 11 — the Editor Server
never clamps it. -/
theorem claim_C3_counterexample :
    (outRun ⟨[], 0⟩
        [OutOp.append (List.replicate 11 'a'), OutOp.read true true,
         OutOp.panelClear]).cursor = 11 ∧
    (outRun ⟨[], 0⟩
        [OutOp.append (List.replicate 11 'a'), OutOp.read true true,
         OutOp.panelClear]).panel.length = 0 ∧
    (outRun ⟨[], 0⟩
        [OutOp.append (List.replicate 11 'a'), OutOp.read true true,
         OutOp.panelClear, OutOp.read true false]).cursor = 11 ∧
    ¬ (11 ≤ 0) := by
  refine ⟨?_, ?_, ?_, by decide⟩ <;> decide

/-- C3 amended: the cursor is written only by `clear=true` calls.  After
any operation sequence followed by a `get_output(clear=true)` the cursor
equals the panel's current parsed length; a `get_output` without `clear`
leaves the cursor untouched (in particular there is no clamping when the
panel has shrunk below it); `new_only` returns exactly the suffix beyond
the cursor when the cursor is below the current length and the empty text
otherwise; and the invariant `cursor ≤ length` is preserved by panel
growth and by every `get_output` call — only a panel reset (shrink) can
break it, and it then stays broken until the next `clear=true` call. -/
theorem claim_C3 (s : OutState) (ops : List OutOp) :
    (∀ n, (outRun s (ops ++ [OutOp.read n true])).cursor =
        (outRun s ops).panel.length) ∧
    (∀ n, (outRun s (ops ++ [OutOp.read n false])).cursor =
        (outRun s ops).cursor) ∧
    (∀ panel cursor c, (handleGetOutput panel cursor true c).1.output =
        if cursor < panel.length then panel.drop cursor else []) ∧
    (∀ s' : OutState, s'.cursor ≤ s'.panel.length →
      (∀ t, (outStep s' (OutOp.append t)).cursor ≤
          (outStep s' (OutOp.append t)).panel.length) ∧
      (∀ n c, (outStep s' (OutOp.read n c)).cursor ≤
          (outStep s' (OutOp.read n c)).panel.length)) := by
  refine ⟨?_, ?_, ?_, ?_⟩
  · intro n
    simp [outRun, List.foldl_append, outStep, handleGetOutput]
  · intro n
    simp [outRun, List.foldl_append, outStep, handleGetOutput]
  · intro panel cursor c
    simp [handleGetOutput]
  · intro s' h
    refine ⟨?_, ?_⟩
    · intro t
      simp only [outStep, List.length_append]
      omega
    · intro n c
      simp only [outStep, handleGetOutput]
      by_cases hc : c <;> simp [hc, h]

/-- Witness for C3 amended at a concrete state and trace. -/
theorem claim_C3_witness :
    (outRun ⟨List.replicate 3 'x', 0⟩
        ([OutOp.append (List.replicate 2 'y')] ++ [OutOp.read true true])).cursor =
      (outRun ⟨List.replicate 3 'x', 0⟩
        [OutOp.append (List.replicate 2 'y')]).panel.length := by
  exact (claim_C3 ⟨List.replicate 3 'x', 0⟩
    [OutOp.append (List.replicate 2 'y')]).1 true

/-! ## C4: the Go adapter's startup-fault detector
(`Client.checkStartupErrors` / `Client.RunMainScene`, internal/godot/client.go) -/

/-- `DebuggerStateResult` as used by `checkStartupErrors` (the struct is
declared in protocol.go; the caller reads its `Paused` and `IsPlaying`
fields). -/
structure DebuggerStateResult where
  paused : Bool
  isPlaying : Bool
deriving Repr, DecidableEq

/-- `StackTraceResult` from `get_debugger_stack_trace` (protocol.go). -/
structure StackTraceResult where
  stackTrace : String
  tlen : Nat
deriving Repr, DecidableEq

/-- `DebugErrorsResult` from `get_debugger_errors` (protocol.go). -/
structure DebugErrorsResult where
  errors : String
  elen : Nat
deriving Repr, DecidableEq

/-- `GenericResult` (protocol.go): the fields `checkStartupErrors`
reads and writes. -/
structure GenericResult where
  success : Bool
  action : String
  errorDetected : Bool
  stackTrace : String
deriving Repr, DecidableEq

/-- What the three follow-up requests of the detector would answer:
`none` models the request returning an error. -/
structure CheckEnv where
  stateQ : Option DebuggerStateResult
  traceQ : Option StackTraceResult
  errorsQ : Option DebugErrorsResult
deriving Repr, DecidableEq

/-- The stack-trace text the paused branch stores: the fetched trace when
the call succeeded with positive length, else the fixed fallback message
(client.go lines 894-902). -/
def startupTraceText (q : Option StackTraceResult) : String :=
  match q with
  | some tr => if 0 < tr.tlen then tr.stackTrace
      else "Game paused on error (no stack trace available)"
  | none => "Game paused on error (no stack trace available)"

/-- The text the not-playing branch stores: the errors-tab text when the
call succeeded with positive length, else the fixed fallback message
(client.go lines 909-917). -/
def startupErrorsText (q : Option DebugErrorsResult) : String :=
  match q with
  | some er => if 0 < er.elen then er.errors
      else "Game failed to start. Use get_output for details."
  | none => "Game failed to start. Use get_output for details."

/-- Result of running the detector: the (possibly updated) run result,
whether the 1.5 s sleep happened, and whether `StopScene` was sent. -/
structure CheckOut where
  result : GenericResult
  slept : Bool
  stoppedScene : Bool
deriving Repr, DecidableEq

/-- `Client.checkStartupErrors` translated from client.go lines 877-922:
skip entirely when `0 < timeout < 1.5`; otherwise sleep 1.5 s, query the
debugger state (give up silently on error), and handle the paused /
not-playing / running-normally cases. -/
def checkStartupErrors (env : CheckEnv) (result : GenericResult) (timeout : Rat) :
    CheckOut :=
  if 0 < timeout ∧ timeout < 3 / 2 then
    { result := result, slept := false, stoppedScene := false }
  else
    match env.stateQ with
    | none => { result := result, slept := true, stoppedScene := false }
    | some st =>
      if st.paused then
        { result := { result with
            errorDetected := true
            stackTrace := startupTraceText env.traceQ },
          slept := true, stoppedScene := true }
      else if !st.isPlaying then
        { result := { result with
            errorDetected := true
            stackTrace := startupErrorsText env.errorsQ },
          slept := true, stoppedScene := false }
      else
        { result := result, slept := true, stoppedScene := false }

/-- `Client.RunMainScene` (client.go lines 924-953) after a successful ack:
the detector runs on the ack result, and what it leaves in `result` is
what the adapter returns. -/
def runMainSceneAfterAck (env : CheckEnv) (ack : GenericResult) (timeout : Rat) :
    GenericResult :=
  (checkStartupErrors env ack timeout).result

/-- C4: with `0 < timeout < 1.5` the startup-fault check is skipped
entirely (no sleep, no stop, ack unchanged — `RunMainScene` returns the
ack as is); otherwise the adapter sleeps 1.5 s and: when the debugger
reports paused it sets `error_detected`, fills the stack trace (fetched
text or the fixed fallback) and stops the scene; when the game is not
playing it sets `error_detected` with the errors-tab text or its fallback
and does not stop; when the game runs normally the ack is unchanged. -/
theorem claim_C4 (env : CheckEnv) (r : GenericResult) (t : Rat) :
    (0 < t → t < 3 / 2 →
      checkStartupErrors env r t =
        { result := r, slept := false, stoppedScene := false } ∧
      runMainSceneAfterAck env r t = r) ∧
    (¬ (0 < t ∧ t < 3 / 2) →
      (checkStartupErrors env r t).slept = true ∧
      (env.stateQ = none → checkStartupErrors env r t =
        { result := r, slept := true, stoppedScene := false }) ∧
      (∀ st, env.stateQ = some st →
        (st.paused = true →
          checkStartupErrors env r t =
            { result := { r with
                errorDetected := true
                stackTrace := startupTraceText env.traceQ },
              slept := true, stoppedScene := true }) ∧
        (st.paused = false → st.isPlaying = false →
          checkStartupErrors env r t =
            { result := { r with
                errorDetected := true
                stackTrace := startupErrorsText env.errorsQ },
              slept := true, stoppedScene := false }) ∧
        (st.paused = false → st.isPlaying = true →
          checkStartupErrors env r t =
            { result := r, slept := true, stoppedScene := false }))) := by
  constructor
  · intro h1 h2
    constructor <;>
      simp [checkStartupErrors, runMainSceneAfterAck, h1, h2]
  · intro hskip
    refine ⟨?_, ?_, ?_⟩
    · simp only [checkStartupErrors, if_neg hskip]
      cases hq : env.stateQ with
      | none => simp
      | some st =>
        by_cases hp : st.paused <;> by_cases hpl : st.isPlaying <;>
          simp [hp, hpl]
    · intro hq
      simp [checkStartupErrors, if_neg hskip, hq]
    · intro st hq
      refine ⟨?_, ?_, ?_⟩
      · intro hp
        simp [checkStartupErrors, if_neg hskip, hq, hp]
      · intro hp hpl
        simp [checkStartupErrors, if_neg hskip, hq, hp, hpl]
      · intro hp hpl
        simp [checkStartupErrors, if_neg hskip, hq, hp, hpl]

/-- Witness for C4: a 1-second timeout skips the detector; a 5-second
timeout with a paused debugger and a fetched trace stops the scene and
surfaces the trace. -/
theorem claim_C4_witness :
    ((0 : Rat) < 1 ∧ (1 : Rat) < 3 / 2 ∧
      checkStartupErrors ⟨some ⟨true, true⟩, some ⟨"Error at _ready", 15⟩, none⟩
          ⟨true, "run_main_scene", false, ""⟩ 1 =
        { result := ⟨true, "run_main_scene", false, ""⟩,
          slept := false, stoppedScene := false }) ∧
    (¬ ((0 : Rat) < 5 ∧ (5 : Rat) < 3 / 2) ∧
      checkStartupErrors ⟨some ⟨true, true⟩, some ⟨"Error at _ready", 15⟩, none⟩
          ⟨true, "run_main_scene", false, ""⟩ 5 =
        { result := ⟨true, "run_main_scene", true, "Error at _ready"⟩,
          slept := true, stoppedScene := true }) := by
  have h1 := (claim_C4 ⟨some ⟨true, true⟩, some ⟨"Error at _ready", 15⟩, none⟩
    ⟨true, "run_main_scene", false, ""⟩ 1).1 (by norm_num) (by norm_num)
  have h5 := ((claim_C4 ⟨some ⟨true, true⟩, some ⟨"Error at _ready", 15⟩, none⟩
    ⟨true, "run_main_scene", false, ""⟩ 5).2 (by norm_num)).2.2
    ⟨true, true⟩ rfl
  refine ⟨⟨by norm_num, by norm_num, h1.1⟩, ⟨by norm_num, ?_⟩⟩
  have h6 := (h5.1 rfl)
  rw [h6]
  simp [startupTraceText]

/-! ## C5: the adapter's single automatic retry on `pending=true`
(`Client.GetRemoteSceneTree` / `Client.GetRemoteNodeProperties`,
internal/godot/client.go lines 1107-1183) -/

/-- Outcome of one `sendRequest` round trip: a transport/server error or a
decoded result body. -/
inductive GoReply (α : Type) where
  | err (msg : String)
  | ok (r : α)
deriving Repr, DecidableEq

/-- `SceneTreeResult` (protocol.go): tree text, length, pending flag. -/
structure SceneTreeResult where
  tree : String
  slen : Nat
  pending : Bool
deriving Repr, DecidableEq

/-- One name/value/type triple from the inspector (protocol.go
`LocalVariable`). -/
structure LocalVariable where
  name : String
  value : String
  vtype : String
deriving Repr, DecidableEq

/-- `NodePropertiesResult` (protocol.go): node path, properties, count,
pending flag. -/
structure NodePropertiesResult where
  nodePath : String
  properties : List LocalVariable
  count : Nat
  pending : Bool
deriving Repr, DecidableEq

/-- `Client.GetRemoteSceneTree` translated from client.go lines 1107-1145.
`oracle n` is the reply to the n-th `get_remote_scene_tree` request of this
call.  Returns the value handed to the caller, the list of sleep durations
(ms) performed, and the number of requests sent. -/
def GetRemoteSceneTree (oracle : Nat → GoReply SceneTreeResult) :
    GoReply SceneTreeResult × List Nat × Nat :=
  match oracle 0 with
  | GoReply.err m => (GoReply.err m, [], 1)
  | GoReply.ok r =>
    if r.pending then
      match oracle 1 with
      | GoReply.err m => (GoReply.err m, [150], 2)
      | GoReply.ok r2 => (GoReply.ok r2, [150], 2)
    else (GoReply.ok r, [], 1)

/-- `Client.GetRemoteNodeProperties` translated from client.go lines
1147-1183.  `oracle n` is the reply to the n-th request.  Returns the value
handed to the caller, the sleep durations (ms), and the `node_path`
parameter of each request sent (to observe that the retry reuses the same
parameters). -/
def GetRemoteNodeProperties (nodePath : String)
    (oracle : Nat → GoReply NodePropertiesResult) :
    GoReply NodePropertiesResult × List Nat × List String :=
  match oracle 0 with
  | GoReply.err m => (GoReply.err m, [], [nodePath])
  | GoReply.ok r =>
    if r.pending then
      match oracle 1 with
      | GoReply.err m => (GoReply.err m, [350], [nodePath, nodePath])
      | GoReply.ok r2 => (GoReply.ok r2, [350], [nodePath, nodePath])
    else (GoReply.ok r, [], [nodePath])

/-- C5: when the first reply carries `pending=true` the adapter performs
exactly one automatic retry — a second identical request after a fixed wait
(150 ms for tree population, 350 ms for inspector population, the latter
being the adapter's margin on the server's ~300 ms hint) — and returns
whatever the second reply contains, even if it is again pending; a
non-pending or failed first reply is returned with no retry; and no call
ever sends more than two requests. -/
theorem claim_C5 (nodePath : String)
    (treeOracle : Nat → GoReply SceneTreeResult)
    (propsOracle : Nat → GoReply NodePropertiesResult) :
    ((∀ r, treeOracle 0 = GoReply.ok r → r.pending = true →
        GetRemoteSceneTree treeOracle = (treeOracle 1, [150], 2)) ∧
      (∀ r, treeOracle 0 = GoReply.ok r → r.pending = false →
        GetRemoteSceneTree treeOracle = (GoReply.ok r, [], 1)) ∧
      (∀ m, treeOracle 0 = GoReply.err m →
        GetRemoteSceneTree treeOracle = (GoReply.err m, [], 1)) ∧
      (GetRemoteSceneTree treeOracle).2.2 ≤ 2) ∧
    ((∀ r, propsOracle 0 = GoReply.ok r → r.pending = true →
        GetRemoteNodeProperties nodePath propsOracle =
          (propsOracle 1, [350], [nodePath, nodePath])) ∧
      (∀ r, propsOracle 0 = GoReply.ok r → r.pending = false →
        GetRemoteNodeProperties nodePath propsOracle =
          (GoReply.ok r, [], [nodePath])) ∧
      (∀ p ∈ (GetRemoteNodeProperties nodePath propsOracle).2.2, p = nodePath) ∧
      (GetRemoteNodeProperties nodePath propsOracle).2.2.length ≤ 2) := by
  constructor
  · refine ⟨?_, ?_, ?_, ?_⟩
    · intro r h0 hp
      simp only [GetRemoteSceneTree, h0, hp, if_pos]
      cases h1 : treeOracle 1 <;> simp [h1]
    · intro r h0 hp
      simp [GetRemoteSceneTree, h0, hp]
    · intro m h0
      simp [GetRemoteSceneTree, h0]
    · cases h0 : treeOracle 0 with
      | err m => simp [GetRemoteSceneTree, h0]
      | ok r =>
        by_cases hp : r.pending
        · cases h1 : treeOracle 1 <;> simp [GetRemoteSceneTree, h0, hp, h1]
        · simp [GetRemoteSceneTree, h0, hp]
  · refine ⟨?_, ?_, ?_, ?_⟩
    · intro r h0 hp
      simp only [GetRemoteNodeProperties, h0, hp, if_pos]
      cases h1 : propsOracle 1 <;> simp [h1]
    · intro r h0 hp
      simp [GetRemoteNodeProperties, h0, hp]
    · intro p hp
      revert hp
      cases h0 : propsOracle 0 with
      | err m => simp [GetRemoteNodeProperties, h0]
      | ok r =>
        by_cases hpend : r.pending
        · cases h1 : propsOracle 1 <;>
            simp [GetRemoteNodeProperties, h0, hpend, h1]
        · simp [GetRemoteNodeProperties, h0, hpend]
    · cases h0 : propsOracle 0 with
      | err m => simp [GetRemoteNodeProperties, h0]
      | ok r =>
        by_cases hpend : r.pending
        · cases h1 : propsOracle 1 <;>
            simp [GetRemoteNodeProperties, h0, hpend, h1]
        · simp [GetRemoteNodeProperties, h0, hpend]

/-- Witness for C5: a pending first reply followed by a populated second
reply is retried exactly once with the same node path. -/
theorem claim_C5_witness :
    GetRemoteNodeProperties "/root/Main/Player"
        (fun n => if n = 0 then
            GoReply.ok ⟨"/root/Main/Player", [], 0, true⟩
          else
            GoReply.ok ⟨"/root/Main/Player", [⟨"health", "100", "EditorPropertyInteger"⟩], 1, false⟩) =
      (GoReply.ok ⟨"/root/Main/Player", [⟨"health", "100", "EditorPropertyInteger"⟩], 1, false⟩,
        [350], ["/root/Main/Player", "/root/Main/Player"]) := by
  have h := ((claim_C5 "/root/Main/Player" (fun _ => GoReply.err "unused")
      (fun n => if n = 0 then
          GoReply.ok ⟨"/root/Main/Player", [], 0, true⟩
        else
          GoReply.ok ⟨"/root/Main/Player", [⟨"health", "100", "EditorPropertyInteger"⟩], 1, false⟩)
      ).2).1 ⟨"/root/Main/Player", [], 0, true⟩ (by simp) rfl
  simpa using h

/-! ## C6: pending idempotence of `handle_get_remote_node_properties`
(message_handler.cpp lines 796-884, editor_control_finder.cpp
`get_remote_scene_tree`) -/

/-- A `TreeItem` of the remote scene tree: its column-0 text, its
metadata object id (none models `Variant::NIL`), and its children. -/
inductive RTree where
  | node (name : String) (oid : Option Int) (children : List RTree)

/-- Column-0 text of a tree item. -/
def RTree.name : RTree → String
  | RTree.node n _ _ => n

/-- Metadata object id of a tree item. -/
def RTree.oid : RTree → Option Int
  | RTree.node _ o _ => o

/-- Children of a tree item. -/
def RTree.children : RTree → List RTree
  | RTree.node _ _ c => c

/-- Helper for `split_node_path`: scan the characters, collecting the
current segment in reverse; a slash closes the segment, and empty segments
are skipped (the C++ loop only pushes non-empty substrings). -/
def splitSegsAux : List Char → List Char → List (List Char)
  | [], acc => if acc.isEmpty then [] else [acc.reverse]
  | c :: rest, acc =>
    if c = '/' then
      if acc.isEmpty then splitSegsAux rest []
      else acc.reverse :: splitSegsAux rest []
    else splitSegsAux rest (c :: acc)

/-- `split_node_path` from message_handler.cpp lines 709-732: trim one
leading slash, then split on slashes keeping only non-empty segments. -/
def split_node_path (s : String) : List String :=
  let cs :=
    match s.data with
    | '/' :: rest => rest
    | cs => cs
  (splitSegsAux cs []).map (fun l => String.mk l)

/-- First child (with its index) whose column-0 text matches, as the inner
loop of `find_tree_item_by_path` does. -/
def findChildIdx (name : String) : List RTree → Nat → Option (Nat × RTree)
  | [], _ => none
  | t :: ts, i =>
    if t.name = name then some (i, t) else findChildIdx name ts (i + 1)

/-- Walk the remaining path parts from a node; positions (child-index
paths) stand in for `TreeItem*` identity. -/
def navigateParts (t : RTree) (pos : List Nat) : List String → Option (List Nat × RTree)
  | [] => some (pos, t)
  | p :: rest =>
    match findChildIdx p t.children 0 with
    | none => none
    | some (i, c) => navigateParts c (pos ++ [i]) rest

/-- `find_tree_item_by_path` from message_handler.cpp lines 734-767:
empty part list returns the root; a first part equal to the root's text is
skipped; then navigate child-by-child by column-0 text. -/
def find_tree_item_by_path (root : RTree) (parts : List String) :
    Option (List Nat × RTree) :=
  match parts with
  | [] => some ([], root)
  | p :: rest =>
    if p = root.name then navigateParts root [] rest
    else navigateParts root [] (p :: rest)

/-- The editor state `handle_get_remote_node_properties` samples: the
remote tree (if found), whether the Remote button is already pressed,
the position of the currently selected tree item, whether the main
inspector was found, and the properties currently collected from it. -/
structure RemoteEnv where
  tree : Option RTree
  remotePressed : Bool
  selected : Option (List Nat)
  inspectorFound : Bool
  inspectorProps : List LocalVariable

/-- UI actions the handler can perform: clicking the Remote button
(`get_remote_scene_tree(true)` in editor_control_finder.cpp clicks only
when the button is not pressed), and the arming action of
`trigger_remote_inspection` (select the item and emit the selection
signal — performed only when the item carries an object id). -/
inductive RAction where
  | clickRemote
  | selectAndEmit (pos : List Nat)
deriving Repr, DecidableEq

/-- The reply of `handle_get_remote_node_properties`. -/
inductive PropsReply where
  | rerror (code : Int) (msg : String)
  | rok (nodePath : String) (props : List LocalVariable) (pending : Bool) (msg : String)
deriving Repr, DecidableEq

/-- `MessageHandler::handle_get_remote_node_properties` translated from
message_handler.cpp lines 796-884, together with the Remote-button click
of `EditorControlFinder::get_remote_scene_tree(true)`.  Returns the reply
and the list of UI actions performed. -/
def handle_get_remote_node_properties (env : RemoteEnv) (nodePath : Option String) :
    PropsReply × List RAction :=
  match nodePath with
  | none => (PropsReply.rerror (-32602) "Missing required param: node_path", [])
  | some path =>
    let acts0 := if env.remotePressed then [] else [RAction.clickRemote]
    match env.tree with
    | none =>
      (PropsReply.rerror (-32000) "Remote scene tree not found (is game running?)", acts0)
    | some t =>
      if t.children.isEmpty then
        (PropsReply.rok path [] true "Remote tree populating, retry in ~200ms", acts0)
      else if !env.inspectorFound then
        (PropsReply.rerror (-32000) "Main inspector not found", acts0)
      else
        match find_tree_item_by_path t (split_node_path path) with
        | none =>
          (PropsReply.rerror (-32000) ("Node not found in remote tree: " ++ path), acts0)
        | some (pos, target) =>
          if env.selected = some pos then
            if env.inspectorProps.isEmpty then
              (PropsReply.rok path [] true
                "Inspector may still be loading, retry in ~300ms", acts0)
            else
              (PropsReply.rok path env.inspectorProps false "", acts0)
          else
            let acts1 := acts0 ++
              (match target.oid with
               | some _ => [RAction.selectAndEmit pos]
               | none => [])
            (PropsReply.rok path [] true "Inspection triggered, retry in ~300ms", acts1)

/-- C6: a repeated `get_remote_node_properties` call for a node path whose
target item is already the selected item of the populated remote tree
performs no arming action at all — no Remote-button click, no re-selection,
no selection-signal emission — and samples the inspector directly: it
replies `pending=true` while the inspector is still empty and
`pending=false` with the properties once it has populated. -/
theorem claim_C6 (env : RemoteEnv) (path : String) (t : RTree)
    (pos : List Nat) (target : RTree)
    (htree : env.tree = some t)
    (hpressed : env.remotePressed = true)
    (hpop : t.children.isEmpty = false)
    (hinsp : env.inspectorFound = true)
    (hfind : find_tree_item_by_path t (split_node_path path) = some (pos, target))
    (hsel : env.selected = some pos) :
    (handle_get_remote_node_properties env (some path)).2 = [] ∧
    (handle_get_remote_node_properties env (some path)).1 =
      (if env.inspectorProps.isEmpty then
        PropsReply.rok path [] true "Inspector may still be loading, retry in ~300ms"
      else
        PropsReply.rok path env.inspectorProps false "") := by
  constructor <;>
  · simp only [handle_get_remote_node_properties, htree, hpressed, hpop, hinsp, hfind,
      hsel, Bool.not_true, Bool.false_eq_true, if_false, if_true]
    split <;> simp

/-- Witness for C6: the target `/root/Main/Player` is already selected in
a two-level remote tree and the inspector has one property — the repeated
call emits no action and returns the property with `pending=false`. -/
theorem claim_C6_witness :
    (handle_get_remote_node_properties
        ⟨some (RTree.node "root" (some 1)
            [RTree.node "Main" (some 7) [RTree.node "Player" (some 8) []]]),
          true, some [0, 0], true, [⟨"health", "100", "EditorPropertyInteger"⟩]⟩
        (some "/root/Main/Player")).2 = [] ∧
    (handle_get_remote_node_properties
        ⟨some (RTree.node "root" (some 1)
            [RTree.node "Main" (some 7) [RTree.node "Player" (some 8) []]]),
          true, some [0, 0], true, [⟨"health", "100", "EditorPropertyInteger"⟩]⟩
        (some "/root/Main/Player")).1 =
      PropsReply.rok "/root/Main/Player"
        [⟨"health", "100", "EditorPropertyInteger"⟩] false "" := by
  have h := claim_C6
    ⟨some (RTree.node "root" (some 1)
        [RTree.node "Main" (some 7) [RTree.node "Player" (some 8) []]]),
      true, some [0, 0], true, [⟨"health", "100", "EditorPropertyInteger"⟩]⟩
    "/root/Main/Player"
    (RTree.node "root" (some 1)
      [RTree.node "Main" (some 7) [RTree.node "Player" (some 8) []]])
    [0, 0] (RTree.node "Player" (some 8) []) rfl rfl rfl rfl rfl rfl
  exact ⟨h.1, by simpa using h.2⟩

/-! ## C7: the overrides side-file (`writeOverrides`, internal/godot/client.go
lines 802-821)

The file's contents are modelled at the level of the parsed JSON value:
`json.Marshal` of the overrides map produces text whose parse is exactly
the corresponding JSON object (the text encoding itself is the
encoding/json library's concern), so the side-file state is an
`Option JValue` — `none` when the file is absent. -/

/-- A JSON value. -/
inductive JValue where
  | jnull
  | jbool (b : Bool)
  | jnum (q : Rat)
  | jstr (s : String)
  | jarr (xs : List JValue)
  | jobj (fields : List (String × JValue))

/-- The Go type `Overrides = map[string]map[string]interface{}`
(protocol.go), as an association list: autoload name to a list of
property-name/value pairs. -/
def Overrides : Type :=
  List (String × List (String × JValue))

/-- `len(overrides)` in Go, where a nil map has length 0. -/
def overridesSize (o : Option Overrides) : Nat :=
  match o with
  | none => 0
  | some l => l.length

/-- `json.Marshal` of the overrides map, at JSON-value level: an object of
objects. -/
def overridesToJson (o : Overrides) : JValue :=
  JValue.jobj (o.map fun p => (p.1, JValue.jobj p.2))

/-- Decode the inner objects of a parsed overrides file. -/
def fieldsToOverrides : List (String × JValue) → Option Overrides
  | [] => some []
  | (k, JValue.jobj inner) :: rest =>
    (fieldsToOverrides rest).map (fun r => (k, inner) :: r)
  | _ => none

/-- Parse the overrides file contents back into the overrides map (what
the Game Helper's `_apply_overrides` obtains from `JSON.parse`). -/
def jsonToOverrides : JValue → Option Overrides
  | JValue.jobj fields => fieldsToOverrides fields
  | _ => none

/-- `writeOverrides` translated from client.go lines 802-821: an empty (or
nil) map removes any existing file; otherwise the marshalled map replaces
the file contents.  (`o.getD []` only fires in the non-empty branch, where
`o` is `some`.) -/
def writeOverrides (o : Option Overrides) (file : Option JValue) : Option JValue :=
  if overridesSize o = 0 then none
  else some (overridesToJson (o.getD []))

/-- Marshalling then parsing an overrides map gives it back. -/
theorem jsonToOverrides_overridesToJson (X : Overrides) :
    jsonToOverrides (overridesToJson X) = some X := by
  show fieldsToOverrides (X.map fun p => (p.1, JValue.jobj p.2)) = some X
  induction X with
  | nil => rfl
  | cons hd tl ih =>
    obtain ⟨k, v⟩ := hd
    simp [fieldsToOverrides, ih]

/-- C7: `writeOverrides(X)` for non-empty X leaves the marshalled map in
the side-file and reading it back parses to X again; `writeOverrides` of an
empty map removes any existing file; and a nil map behaves exactly like an
empty one. -/
theorem claim_C7 (X : Overrides) (file : Option JValue) (hne : X ≠ []) :
    (writeOverrides (some X) file = some (overridesToJson X) ∧
      (writeOverrides (some X) file).bind jsonToOverrides = some X) ∧
    (∀ f : Option JValue, writeOverrides (some []) f = none) ∧
    (∀ f : Option JValue, writeOverrides none f = writeOverrides (some []) f) := by
  refine ⟨⟨?_, ?_⟩, ?_, ?_⟩
  · simp [writeOverrides, overridesSize, List.length_eq_zero, hne]
  · simp [writeOverrides, overridesSize, List.length_eq_zero, hne,
      jsonToOverrides_overridesToJson]
  · intro f; simp [writeOverrides, overridesSize]
  · intro f; simp [writeOverrides, overridesSize]

/-- Witness for C7: a one-autoload, one-property override map survives the
write/read round trip, and the empty map deletes the file. -/
theorem claim_C7_witness :
    (([("DebugManager", [("debug_mode", JValue.jbool true)])] : Overrides) ≠ [] ∧
      ((writeOverrides (some [("DebugManager", [("debug_mode", JValue.jbool true)])])
          (some (JValue.jobj []))).bind jsonToOverrides =
        some [("DebugManager", [("debug_mode", JValue.jbool true)])]) ∧
      writeOverrides (some []) (some (JValue.jobj [])) = none) := by
  have h := claim_C7 [("DebugManager", [("debug_mode", JValue.jbool true)])]
    (some (JValue.jobj [])) (by simp)
  exact ⟨by simp, h.1.2, h.2.1 (some (JValue.jobj []))⟩

/-! ## C8: socket-path sanitisation — Go `sanitizeProjectName`
(cmd/godot-peek-mcp/main.go lines 25-37) versus the C++ plugin's
`get_project_socket_path` (godot_peek_plugin.cpp lines 16-61)

The C++ loop runs over the UTF-8 BYTES of the directory name with
`std::isalnum` / `std::tolower` (ASCII in the C locale); the Go loop runs
over the Unicode RUNES with `unicode.IsLetter` / `unicode.IsDigit` /
`unicode.ToLower`.  The byte side is a `List Nat`, the rune side a
`List Char`, related by UTF-8 encoding. -/

/-- `std::isalnum` on a byte in the C locale: ASCII digits and letters. -/
def asciiIsAlnum (b : Nat) : Bool :=
  (48 ≤ b && b ≤ 57) || (65 ≤ b && b ≤ 90) || (97 ≤ b && b ≤ 122)

/-- `std::tolower` on a byte in the C locale. -/
def asciiToLower (b : Nat) : Nat :=
  if 65 ≤ b && b ≤ 90 then b + 32 else b

/-- The C++ loop's else-branch (godot_peek_plugin.cpp line 47): append a
separating dash iff the accumulator is non-empty and does not already end
in one.  The accumulated string is kept in reverse, so `back()` is the
head. -/
def appendSep (acc : List Nat) : List Nat :=
  match acc with
  | [] => []
  | h :: t => if h = 45 then h :: t else 45 :: h :: t

/-- The C++ sanitising loop (godot_peek_plugin.cpp lines 43-50),
accumulator reversed. -/
def cppSanitizeLoop : List Nat → List Nat → List Nat
  | [], acc => acc
  | b :: rest, acc =>
    if asciiIsAlnum b then cppSanitizeLoop rest (asciiToLower b :: acc)
    else cppSanitizeLoop rest (appendSep acc)

/-- Trailing-dash trimming (godot_peek_plugin.cpp lines 52-54) on the
reversed accumulator: drop leading 45s. -/
def dropLeadingDashes : List Nat → List Nat
  | [] => []
  | b :: rest => if b = 45 then dropLeadingDashes rest else b :: rest

/-- The C++ plugin's sanitisation of a directory name given as UTF-8
bytes. -/
def cppSanitize (bytes : List Nat) : List Nat :=
  (dropLeadingDashes (cppSanitizeLoop bytes [])).reverse

/-- Go's `unicode.IsLetter`, modelled exactly on code points below 0x100
(ASCII letters plus the Latin-1 letters 0xAA, 0xB5, 0xBA, 0xC0-0xD6,
0xD8-0xF6, 0xF8-0xFF); no theorem below evaluates it above that range. -/
def goIsLetter (c : Char) : Bool :=
  let n := c.toNat
  (65 ≤ n && n ≤ 90) || (97 ≤ n && n ≤ 122) ||
    (n == 0xAA) || (n == 0xB5) || (n == 0xBA) ||
    (0xC0 ≤ n && n ≤ 0xD6) || (0xD8 ≤ n && n ≤ 0xF6) || (0xF8 ≤ n && n ≤ 0xFF)

/-- Go's `unicode.IsDigit`, exact below 0x100 (only the ASCII digits are
in category Nd there). -/
def goIsDigit (c : Char) : Bool :=
  48 ≤ c.toNat && c.toNat ≤ 57

/-- Go's `unicode.ToLower`, exact below 0x100: ASCII and Latin-1
uppercase letters move down by 32, everything else is unchanged. -/
def goToLower (c : Char) : Char :=
  let n := c.toNat
  if (65 ≤ n && n ≤ 90) || (0xC0 ≤ n && n ≤ 0xD6) || (0xD8 ≤ n && n ≤ 0xDE) then
    Char.ofNat (n + 32)
  else c

/-- The Go loop's else-branch (main.go line 32-34): write a dash iff the
builder is non-empty and has no dash suffix; accumulator reversed. -/
def goAppendSep (acc : List Char) : List Char :=
  match acc with
  | [] => []
  | h :: t => if h = '-' then h :: t else '-' :: h :: t

/-- The Go sanitising loop (main.go lines 29-35), accumulator reversed. -/
def goSanitizeLoop : List Char → List Char → List Char
  | [], acc => acc
  | c :: rest, acc =>
    if goIsLetter c || goIsDigit c then goSanitizeLoop rest (goToLower c :: acc)
    else goSanitizeLoop rest (goAppendSep acc)

/-- `strings.TrimRight(b.String(), "-")` on the reversed accumulator. -/
def goDropDashes : List Char → List Char
  | [] => []
  | c :: rest => if c = '-' then goDropDashes rest else c :: rest

/-- `sanitizeProjectName` from cmd/godot-peek-mcp/main.go lines 27-37. -/
def sanitizeProjectName (cs : List Char) : List Char :=
  (goDropDashes (goSanitizeLoop cs [])).reverse

/-- UTF-8 encoding of one Unicode scalar value. -/
def utf8EncodeChar (c : Char) : List Nat :=
  let n := c.toNat
  if n < 0x80 then [n]
  else if n < 0x800 then [0xC0 + n / 0x40, 0x80 + n % 0x40]
  else if n < 0x10000 then
    [0xE0 + n / 0x1000, 0x80 + n / 0x40 % 0x40, 0x80 + n % 0x40]
  else
    [0xF0 + n / 0x40000, 0x80 + n / 0x1000 % 0x40,
      0x80 + n / 0x40 % 0x40, 0x80 + n % 0x40]

/-- UTF-8 encoding of a rune sequence (the byte string the C++ plugin
sees for the directory name whose runes the Go adapter iterates). -/
def utf8Encode (cs : List Char) : List Nat :=
  (cs.map utf8EncodeChar).flatten

/-- The tail of `get_project_socket_path` (godot_peek_plugin.cpp lines
56-60), at byte level: an empty sanitisation falls back to the fixed
path. -/
def get_project_socket_path (dirBytes : List Nat) : List Nat :=
  let sanitized := cppSanitize dirBytes
  if sanitized.isEmpty then utf8Encode "/tmp/godot-peek.sock".data
  else utf8Encode "/tmp/godot-peek-".data ++ sanitized ++ utf8Encode ".sock".data

/-- The Go adapter's socket-path derivation (main.go `run`, lines 57-69):
an empty sanitisation falls back to `godot.DefaultSocketPath`. -/
def goSocketPath (base : List Char) : List Char :=
  let sanitized := sanitizeProjectName base
  if sanitized.isEmpty then "/tmp/godot-peek.sock".data
  else "/tmp/godot-peek-".data ++ sanitized ++ ".sock".data

/-- Characters with equal code points are equal. -/
theorem char_toNat_inj (a b : Char) (h : a.toNat = b.toNat) : a = b :=
  Char.ext (UInt32.ext h)

/-- A character is the dash exactly when its code point is 45. -/
theorem char_eq_dash_iff (h : Char) : h = '-' ↔ h.toNat = 45 := by
  constructor
  · rintro rfl; rfl
  · intro e; exact char_toNat_inj h '-' e

/-- On ASCII, Go's rune classifier coincides with `std::isalnum` on the
byte. -/
theorem goClassifier_ascii (c : Char) (h : c.toNat < 128) :
    (goIsLetter c || goIsDigit c) = asciiIsAlnum c.toNat := by
  rw [Bool.eq_iff_iff]
  simp only [goIsLetter, goIsDigit, asciiIsAlnum, Bool.or_eq_true,
    Bool.and_eq_true, decide_eq_true_eq, beq_iff_eq]
  omega

/-- `Char.ofNat` round-trips on the lowercase images of ASCII uppercase
letters. -/
theorem char_ofNat_toNat_upper (m : Nat) (h1 : 65 ≤ m) (h2 : m ≤ 90) :
    (Char.ofNat (m + 32)).toNat = m + 32 := by
  interval_cases m <;> decide

/-- On ASCII, Go's `unicode.ToLower` on the rune matches `std::tolower`
on the byte. -/
theorem goToLower_ascii (c : Char) (h : c.toNat < 128) :
    (goToLower c).toNat = asciiToLower c.toNat := by
  simp only [goToLower, asciiToLower]
  by_cases hu : 65 ≤ c.toNat ∧ c.toNat ≤ 90
  · have hcond : ((65 ≤ c.toNat && c.toNat ≤ 90) ||
        (0xC0 ≤ c.toNat && c.toNat ≤ 0xD6) ||
        (0xD8 ≤ c.toNat && c.toNat ≤ 0xDE)) = true := by
      simp only [Bool.or_eq_true, Bool.and_eq_true, decide_eq_true_eq]
      omega
    have hcond2 : (65 ≤ c.toNat && c.toNat ≤ 90) = true := by
      simp only [Bool.and_eq_true, decide_eq_true_eq]
      omega
    rw [hcond, hcond2]
    simp only [if_true]
    exact char_ofNat_toNat_upper c.toNat hu.1 hu.2
  · have hcond : ((65 ≤ c.toNat && c.toNat ≤ 90) ||
        (0xC0 ≤ c.toNat && c.toNat ≤ 0xD6) ||
        (0xD8 ≤ c.toNat && c.toNat ≤ 0xDE)) = false := by
      simp only [Bool.or_eq_false_iff, Bool.and_eq_false_iff,
        decide_eq_false_iff_not]
      omega
    have hcond2 : (65 ≤ c.toNat && c.toNat ≤ 90) = false := by
      simp only [Bool.and_eq_false_iff, decide_eq_false_iff_not]
      omega
    rw [hcond, hcond2]
    simp

/-- UTF-8 of an all-ASCII rune sequence is the code points themselves. -/
theorem utf8Encode_ascii (cs : List Char) (h : ∀ c ∈ cs, c.toNat < 128) :
    utf8Encode cs = cs.map Char.toNat := by
  induction cs with
  | nil => rfl
  | cons c rest ih =>
    have hc : c.toNat < 128 := h c (List.mem_cons_self c rest)
    have hr := ih (fun x hx => h x (List.mem_cons_of_mem c hx))
    simp only [utf8Encode, utf8EncodeChar, List.map_cons, List.flatten_cons] at hr ⊢
    have : c.toNat < 0x80 := by omega
    rw [if_pos this, hr]
    rfl

/-- The separator-append helpers agree on related accumulators. -/
theorem appendSep_agree (acc : List Char) :
    appendSep (acc.map Char.toNat) = (goAppendSep acc).map Char.toNat := by
  cases acc with
  | nil => rfl
  | cons a t =>
    simp only [List.map_cons, appendSep, goAppendSep]
    by_cases hd : a = '-'
    · rw [if_pos ((char_eq_dash_iff a).mp hd), if_pos hd]
      simp
    · rw [if_neg (fun e => hd ((char_eq_dash_iff a).mpr e)), if_neg hd]
      simp

/-- The two sanitising loops agree step by step on ASCII input, for
related accumulators. -/
theorem sanitizeLoop_agree (cs : List Char) (acc : List Char)
    (h : ∀ c ∈ cs, c.toNat < 128) :
    cppSanitizeLoop (cs.map Char.toNat) (acc.map Char.toNat) =
      (goSanitizeLoop cs acc).map Char.toNat := by
  induction cs generalizing acc with
  | nil => rfl
  | cons c rest ih =>
    have hc : c.toNat < 128 := h c (List.mem_cons_self c rest)
    have hr : ∀ x ∈ rest, x.toNat < 128 :=
      fun x hx => h x (List.mem_cons_of_mem c hx)
    simp only [List.map_cons, cppSanitizeLoop, goSanitizeLoop,
      goClassifier_ascii c hc]
    by_cases hal : asciiIsAlnum c.toNat = true
    · rw [hal]
      simp only [if_true]
      rw [← goToLower_ascii c hc]
      exact ih (goToLower c :: acc) hr
    · rw [Bool.not_eq_true] at hal
      rw [hal]
      simp only [Bool.false_eq_true, if_false]
      rw [appendSep_agree]
      exact ih (goAppendSep acc) hr

/-- Trailing-dash trimming agrees on related accumulators. -/
theorem dropDashes_agree (l : List Char) :
    dropLeadingDashes (l.map Char.toNat) = (goDropDashes l).map Char.toNat := by
  induction l with
  | nil => rfl
  | cons a t ih =>
    simp only [List.map_cons, dropLeadingDashes, goDropDashes]
    by_cases hd : a = '-'
    · rw [if_pos ((char_eq_dash_iff a).mp hd), if_pos hd]
      exact ih
    · rw [if_neg (fun e => hd ((char_eq_dash_iff a).mpr e)), if_neg hd]
      simp

/-- `goAppendSep` only ever adds the ASCII dash. -/
theorem goAppendSep_ascii (acc : List Char)
    (hacc : ∀ a ∈ acc, a.toNat < 128) :
    ∀ x ∈ goAppendSep acc, x.toNat < 128 := by
  intro x hx
  cases acc with
  | nil => simp [goAppendSep] at hx
  | cons a t =>
    simp only [goAppendSep] at hx
    by_cases hd : a = '-'
    · rw [if_pos hd] at hx
      exact hacc x hx
    · rw [if_neg hd] at hx
      rcases List.mem_cons.mp hx with rfl | hx
      · decide
      · exact hacc x hx

/-- The Go loop's output stays ASCII on ASCII input. -/
theorem goSanitizeLoop_ascii (cs : List Char) (h : ∀ c ∈ cs, c.toNat < 128) :
    ∀ acc : List Char, (∀ a ∈ acc, a.toNat < 128) →
      ∀ x ∈ goSanitizeLoop cs acc, x.toNat < 128 := by
  induction cs with
  | nil =>
    intro acc hacc x hx
    exact hacc x hx
  | cons c rest ih =>
    intro acc hacc x hx
    have hc : c.toNat < 128 := h c (List.mem_cons_self c rest)
    have hrest : ∀ a ∈ rest, a.toNat < 128 :=
      fun a ha => h a (List.mem_cons_of_mem c ha)
    simp only [goSanitizeLoop] at hx
    by_cases hal : (goIsLetter c || goIsDigit c) = true
    · rw [hal] at hx
      simp only [if_true] at hx
      refine ih hrest (goToLower c :: acc) ?_ x hx
      intro a ha
      rcases List.mem_cons.mp ha with rfl | ha
      · rw [goToLower_ascii c hc]
        simp only [asciiToLower]
        split
        · rename_i hcnd
          simp only [Bool.and_eq_true, decide_eq_true_eq] at hcnd
          omega
        · omega
      · exact hacc a ha
    · rw [Bool.not_eq_true] at hal
      rw [hal] at hx
      simp only [Bool.false_eq_true, if_false] at hx
      exact ih hrest (goAppendSep acc) (goAppendSep_ascii acc hacc) x hx

/-- Dropping dashes keeps ASCII-ness. -/
theorem goDropDashes_ascii (l : List Char) (hl : ∀ a ∈ l, a.toNat < 128) :
    ∀ a ∈ goDropDashes l, a.toNat < 128 := by
  induction l with
  | nil => intro a ha; simpa [goDropDashes] using ha
  | cons b t ih =>
    intro a ha
    simp only [goDropDashes] at ha
    by_cases hb : b = '-'
    · rw [if_pos hb] at ha
      exact ih (fun y hy => hl y (List.mem_cons_of_mem b hy)) a ha
    · rw [if_neg hb] at ha
      exact hl a ha

/-- `sanitizeProjectName` of an ASCII basename is ASCII. -/
theorem sanitizeProjectName_ascii (cs : List Char)
    (h : ∀ c ∈ cs, c.toNat < 128) :
    ∀ a ∈ sanitizeProjectName cs, a.toNat < 128 := by
  intro a ha
  simp only [sanitizeProjectName, List.mem_reverse] at ha
  exact goDropDashes_ascii _ (goSanitizeLoop_ascii cs h [] (by simp)) a ha

/-- Counterexample to C8 as stated: for the directory basename "é"
(U+00E9, UTF-8 bytes 0xC3 0xA9) the Go adapter keeps the letter —
`sanitizeProjectName` yields "é" and the socket path
`/tmp/godot-peek-é.sock` — while the C++ plugin sees two non-ASCII bytes,
sanitises to the empty string and falls back to `/tmp/godot-peek.sock`:
the two sides derive different strings and different socket paths for the
same project directory. -/
theorem claim_C8_counterexample :
    sanitizeProjectName ['é'] = ['é'] ∧
    cppSanitize (utf8Encode ['é']) = [] ∧
    utf8Encode (sanitizeProjectName ['é']) ≠ cppSanitize (utf8Encode ['é']) ∧
    goSocketPath ['é'] = "/tmp/godot-peek-é.sock".data ∧
    get_project_socket_path (utf8Encode ['é']) =
      utf8Encode "/tmp/godot-peek.sock".data ∧
    utf8Encode (goSocketPath ['é']) ≠
      get_project_socket_path (utf8Encode ['é']) := by
  refine ⟨by decide, by decide, by decide, by decide, by decide, by decide⟩

/-- C8 amended: for every project directory basename consisting of ASCII
characters, the Go adapter's `sanitizeProjectName` and the C++ plugin's
sanitisation compute the same string (lowercase alphanumerics, runs of
other characters collapsed to one interior dash, trailing dashes trimmed)
and hence the same socket path; on non-ASCII basenames the two can differ,
because Go classifies Unicode runes while C++ classifies raw bytes with
`std::isalnum` (see the counterexample). -/
theorem claim_C8 (cs : List Char) (h : ∀ c ∈ cs, c.toNat < 128) :
    cppSanitize (utf8Encode cs) = (sanitizeProjectName cs).map Char.toNat ∧
    get_project_socket_path (utf8Encode cs) = utf8Encode (goSocketPath cs) := by
  have hsan : cppSanitize (utf8Encode cs) =
      (sanitizeProjectName cs).map Char.toNat := by
    rw [utf8Encode_ascii cs h]
    show (dropLeadingDashes (cppSanitizeLoop (List.map Char.toNat cs)
        (List.map Char.toNat []))).reverse = _
    rw [sanitizeLoop_agree cs [] h, dropDashes_agree]
    simp [sanitizeProjectName]
  refine ⟨hsan, ?_⟩
  have hempty : (cppSanitize (utf8Encode cs)).isEmpty =
      (sanitizeProjectName cs).isEmpty := by
    rw [hsan]
    cases sanitizeProjectName cs <;> simp
  have hascii := sanitizeProjectName_ascii cs h
  simp only [get_project_socket_path, goSocketPath, hempty]
  by_cases he : (sanitizeProjectName cs).isEmpty = true
  · rw [he]
    simp
  · rw [Bool.not_eq_true] at he
    rw [he]
    simp only [Bool.false_eq_true, if_false]
    have hdist : utf8Encode ("/tmp/godot-peek-".data ++ sanitizeProjectName cs
        ++ ".sock".data) =
        utf8Encode "/tmp/godot-peek-".data ++ utf8Encode (sanitizeProjectName cs)
          ++ utf8Encode ".sock".data := by
      simp [utf8Encode]
    rw [hdist, utf8Encode_ascii _ hascii, hsan]

/-- Witness for C8 amended on the ASCII basename "My-Game": both sides
sanitise to "my-game". -/
theorem claim_C8_witness :
    ((∀ c ∈ "My-Game".data, c.toNat < 128) ∧
      cppSanitize (utf8Encode "My-Game".data) =
        (sanitizeProjectName "My-Game".data).map Char.toNat ∧
      sanitizeProjectName "My-Game".data = "my-game".data) := by
  have h := claim_C8 "My-Game".data (by decide)
  exact ⟨by decide, h.1, by decide⟩

/-! ## C9: breakpoint bookkeeping of `GodotPeekDebuggerPlugin`
(extension/src/debugger_plugin.cpp lines 56-130) -/

/-- `CachedBreakpoint` from debugger_plugin.h. -/
structure CachedBreakpoint where
  path : String
  line : Int
  enabled : Bool
deriving Repr, DecidableEq

/-- Editor lookups `set_breakpoint` performs on its way to the CodeEdit
widget, plus whether a debugger session is currently alive
(`session_valid` with a valid `get_session`). -/
structure DebuggerWorld where
  editorOk : Bool
  scriptLoads : Bool
  scriptEditorOk : Bool
  currentEditorOk : Bool
  codeEditOk : Bool
  sessionAlive : Bool
deriving Repr, DecidableEq

/-- Observable actions of the breakpoint code: a
`code_edit->set_line_as_breakpoint(widgetLine, enabled)` write (the widget
is 0-indexed), and a `session->set_breakpoint(path, line, enabled)`
push. -/
inductive BpAction where
  | widgetSet (path : String) (widgetLine : Int) (enabled : Bool)
  | sessionSet (path : String) (line : Int) (enabled : Bool)
deriving Repr, DecidableEq

/-- `GodotPeekDebuggerPlugin::set_breakpoint` translated from
debugger_plugin.cpp lines 67-122: drop any cached entry with the same
(path, line), cache the new entry when enabling, then walk the editor to
the CodeEdit and set the widget breakpoint at `line - 1`.  No session
call appears anywhere on this path. -/
def set_breakpoint (cache : List CachedBreakpoint) (w : DebuggerWorld)
    (path : String) (line : Int) (enabled : Bool) :
    List CachedBreakpoint × List BpAction :=
  let cache1 := cache.filter fun bp => !(bp.path == path && bp.line == line)
  let cache2 := if enabled then cache1 ++ [⟨path, line, enabled⟩] else cache1
  if !w.editorOk then (cache2, [])
  else if !w.scriptLoads then (cache2, [])
  else if !w.scriptEditorOk then (cache2, [])
  else if !w.currentEditorOk then (cache2, [])
  else if !w.codeEditOk then (cache2, [])
  else (cache2, [BpAction.widgetSet path (line - 1) enabled])

/-- `GodotPeekDebuggerPlugin::clear_all_breakpoints` (debugger_plugin.cpp
lines 124-130): call `set_breakpoint(path, line, false)` for each cached
entry, then clear the cache.  (The C++ iterates the vector it is erasing
from; the model iterates a snapshot, which is the evident intent.) -/
def clear_all_breakpoints (cache : List CachedBreakpoint) (w : DebuggerWorld) :
    List CachedBreakpoint × List BpAction :=
  let folded := cache.foldl
    (fun (acc : List CachedBreakpoint × List BpAction) bp =>
      let r := set_breakpoint acc.1 w bp.path bp.line false
      (r.1, acc.2 ++ r.2))
    (cache, [])
  ([], folded.2)

/-- `apply_cached_breakpoints` (debugger_plugin.cpp lines 56-65), run by
`_setup_session` when a debugger session starts: push each enabled cached
breakpoint to the session. -/
def apply_cached_breakpoints (cache : List CachedBreakpoint) : List BpAction :=
  (cache.filter fun bp => bp.enabled).map
    fun bp => BpAction.sessionSet bp.path bp.line bp.enabled

/-- Canonical-set lookup by the (path, line) key. -/
def findBp (cache : List CachedBreakpoint) (path : String) (line : Int) :
    Option CachedBreakpoint :=
  cache.find? fun bp => bp.path == path && bp.line == line

/-- Whether an action is a session push. -/
def BpAction.isSession : BpAction → Bool
  | BpAction.sessionSet _ _ _ => true
  | _ => false

/-- Removing the (path, line) key from the cache leaves no entry with
that key. -/
theorem find?_removeKey_none (cache : List CachedBreakpoint)
    (path : String) (line : Int) :
    (cache.filter fun bp => !(bp.path == path && bp.line == line)).find?
      (fun bp => bp.path == path && bp.line == line) = none := by
  rw [List.find?_eq_none]
  intro bp hbp
  have := List.of_mem_filter hbp
  simp only [Bool.not_eq_true'] at this
  simp [this]

/-- Removing one key from the cache does not disturb lookups of any other
key. -/
theorem find?_removeKey_other (cache : List CachedBreakpoint)
    (path : String) (line : Int) (p' : String) (l' : Int)
    (hne : ¬ (p' = path ∧ l' = line)) :
    (cache.filter fun bp => !(bp.path == path && bp.line == line)).find?
      (fun bp => bp.path == p' && bp.line == l') =
    cache.find? (fun bp => bp.path == p' && bp.line == l') := by
  induction cache with
  | nil => rfl
  | cons bp rest ih =>
    by_cases hmatch : (bp.path == path && bp.line == line) = true
    · have hbpquery : (bp.path == p' && bp.line == l') = false := by
        simp only [Bool.and_eq_true, beq_iff_eq] at hmatch
        simp only [Bool.and_eq_false_iff, beq_eq_false_iff_ne, ne_eq]
        by_cases hp : bp.path = p'
        · right; intro hl
          exact hne ⟨hp.symm.trans hmatch.1, hl.symm.trans hmatch.2⟩
        · left; exact hp
      rw [List.filter_cons]
      simp only [hmatch, Bool.not_true, Bool.false_eq_true, if_false]
      rw [List.find?_cons, hbpquery]
      exact ih
    · rw [List.filter_cons]
      simp only [Bool.not_eq_true] at hmatch
      simp only [hmatch, Bool.not_false, if_true]
      rw [List.find?_cons, List.find?_cons]
      cases hq : (bp.path == p' && bp.line == l') with
      | true => rfl
      | false => exact ih

/-- Counterexample to C9 as stated: with a debugger session alive (and
every editor lookup succeeding), `set_breakpoint("res://player.gd", 10,
true)` caches the breakpoint and sets the widget at line 9, but pushes
nothing to the session — the session receives breakpoints only when it is
set up, not on later `set_breakpoint` calls. -/
theorem claim_C9_counterexample :
    (DebuggerWorld.sessionAlive ⟨true, true, true, true, true, true⟩ = true) ∧
    set_breakpoint [] ⟨true, true, true, true, true, true⟩
        "res://player.gd" 10 true =
      ([⟨"res://player.gd", 10, true⟩],
        [BpAction.widgetSet "res://player.gd" 9 true]) ∧
    (set_breakpoint [] ⟨true, true, true, true, true, true⟩
        "res://player.gd" 10 true).2.filter BpAction.isSession = [] := by
  refine ⟨rfl, by decide, by decide⟩

/-- C9 amended: `set_breakpoint` keeps the canonical set keyed by
(path, line) — after a call, lookup of that key yields the new entry when
enabling and nothing when disabling, every other key is untouched, and a
later write replaces any earlier entry; `clear_breakpoints` empties the
set; when the editor lookups succeed the code-editor widget is written at
`line - 1` (0-indexed); but no `set_breakpoint` call ever pushes to a
live debugger session — sessions receive the cached enabled breakpoints
only when `_setup_session` runs at session start. -/
theorem claim_C9 (cache : List CachedBreakpoint) (w : DebuggerWorld)
    (path : String) (line : Int) (enabled : Bool)
    (hw : w.editorOk = true ∧ w.scriptLoads = true ∧ w.scriptEditorOk = true ∧
      w.currentEditorOk = true ∧ w.codeEditOk = true) :
    (findBp (set_breakpoint cache w path line enabled).1 path line =
      if enabled then some ⟨path, line, enabled⟩ else none) ∧
    (∀ p' l', ¬ (p' = path ∧ l' = line) →
      findBp (set_breakpoint cache w path line enabled).1 p' l' =
        findBp cache p' l') ∧
    ((clear_all_breakpoints cache w).1 = []) ∧
    ((set_breakpoint cache w path line enabled).2 =
      [BpAction.widgetSet path (line - 1) enabled]) ∧
    (∀ a ∈ (set_breakpoint cache w path line enabled).2,
      a.isSession = false) ∧
    (apply_cached_breakpoints cache =
      (cache.filter fun bp => bp.enabled).map
        fun bp => BpAction.sessionSet bp.path bp.line bp.enabled) := by
  obtain ⟨h1, h2, h3, h4, h5⟩ := hw
  have hcache2 : (set_breakpoint cache w path line enabled).1 =
      (cache.filter fun bp => !(bp.path == path && bp.line == line)) ++
        (if enabled then [⟨path, line, enabled⟩] else []) := by
    simp only [set_breakpoint, h1, h2, h3, h4, h5]
    cases enabled <;> simp
  refine ⟨?_, ?_, rfl, ?_, ?_, rfl⟩
  · rw [hcache2]
    cases enabled with
    | false =>
      simp only [Bool.false_eq_true, if_false, List.append_nil, findBp]
      exact find?_removeKey_none cache path line
    | true =>
      simp only [if_true, findBp]
      rw [List.find?_append, find?_removeKey_none cache path line]
      simp
  · intro p' l' hne
    simp only [findBp]
    rw [hcache2, List.find?_append, find?_removeKey_other cache path line p' l' hne]
    cases hfind : cache.find? (fun bp => bp.path == p' && bp.line == l') with
    | some bp => rfl
    | none =>
      simp only [Option.none_or]
      rw [List.find?_eq_none]
      intro bp hbp
      cases enabled with
      | false => simp at hbp
      | true =>
        simp only [if_true, List.mem_singleton] at hbp
        subst hbp
        simp only [Bool.and_eq_true, beq_iff_eq, not_and]
        intro hp hl
        exact hne ⟨hp.symm, hl.symm⟩
  · simp only [set_breakpoint, h1, h2, h3, h4, h5]
    cases enabled <;> simp
  · intro a ha
    simp only [set_breakpoint, h1, h2, h3, h4, h5] at ha
    cases enabled <;> simp_all [BpAction.isSession]

/-- Witness for C9 amended: overwriting the breakpoint at
(res://player.gd, 10) replaces the earlier disabled entry and writes the
widget at line 9. -/
theorem claim_C9_witness :
    findBp (set_breakpoint [⟨"res://player.gd", 10, true⟩]
        ⟨true, true, true, true, true, false⟩
        "res://player.gd" 10 true).1 "res://player.gd" 10 =
      some ⟨"res://player.gd", 10, true⟩ ∧
    (set_breakpoint [⟨"res://player.gd", 10, true⟩]
        ⟨true, true, true, true, true, false⟩
        "res://player.gd" 10 true).2 =
      [BpAction.widgetSet "res://player.gd" 9 true] := by
  have h := claim_C9 [⟨"res://player.gd", 10, true⟩]
    ⟨true, true, true, true, true, false⟩
    "res://player.gd" 10 true ⟨rfl, rfl, rfl, rfl, rfl⟩
  refine ⟨?_, h.2.2.2.1⟩
  rw [h.1]
  rfl

/-! ## C10: `MessageHandler::handle_debug_step`
(message_handler.cpp lines 957-983) -/

/-- The reply of `handle_debug_step`: an error envelope or a success body
carrying the mode. -/
inductive StepReply where
  | serror (code : Int) (msg : String)
  | sok (mode : String)
deriving Repr, DecidableEq

/-- Field lookup in a parsed JSON object (`params.contains(key)` plus
`params[key]`). -/
def objLookup (v : JValue) (key : String) : Option JValue :=
  match v with
  | JValue.jobj fields => (fields.find? fun p => p.1 == key).map (fun p => p.2)
  | _ => none

/-- What the step functions of `GodotPeekDebuggerPlugin` send: one message
to the session when one is alive, nothing otherwise
(debugger_plugin.cpp lines 156-178). -/
def stepSessionMsgs (sessionAlive : Bool) (msg : String) : List String :=
  if sessionAlive then [msg] else []

/-- `MessageHandler::handle_debug_step` translated from message_handler.cpp
lines 957-983.  `params` is the parse of the params string (`none` models
`is_discarded`); `mode` defaults to "over" unless the parse succeeded and
carries a string `mode` field.  Returns the reply and the messages sent to
the debugger session ("step" for into, "next" for over, "out" for out). -/
def handle_debug_step (hasPlugin sessionAlive : Bool) (params : Option JValue) :
    StepReply × List String :=
  if !hasPlugin then
    (StepReply.serror (-32000) "Debugger plugin not initialized", [])
  else
    let mode :=
      match params with
      | some v =>
        match objLookup v "mode" with
        | some (JValue.jstr s) => s
        | _ => "over"
      | none => "over"
    if mode = "into" then (StepReply.sok mode, stepSessionMsgs sessionAlive "step")
    else if mode = "over" then (StepReply.sok mode, stepSessionMsgs sessionAlive "next")
    else if mode = "out" then (StepReply.sok mode, stepSessionMsgs sessionAlive "out")
    else
      (StepReply.serror (-32602)
        ("Invalid mode: " ++ mode ++ " (expected: into, over, out)"), [])

/-- C10: a `debug_step` whose params fail to parse, or whose parsed params
carry no string `mode` field, is treated as mode "over": it succeeds and
sends the step-over message "next" to a live debugger session; a mode
string in {into, over, out} succeeds with the matching message; and only
an explicitly supplied mode string outside that set yields −32602. -/
theorem claim_C10 (sa : Bool) (hsa : sa = true) :
    (handle_debug_step true sa none = (StepReply.sok "over", ["next"])) ∧
    (∀ v : JValue, (∀ s, objLookup v "mode" ≠ some (JValue.jstr s)) →
      handle_debug_step true sa (some v) = (StepReply.sok "over", ["next"])) ∧
    (∀ v s, objLookup v "mode" = some (JValue.jstr s) →
      (s = "into" → handle_debug_step true sa (some v) = (StepReply.sok "into", ["step"])) ∧
      (s = "over" → handle_debug_step true sa (some v) = (StepReply.sok "over", ["next"])) ∧
      (s = "out" → handle_debug_step true sa (some v) = (StepReply.sok "out", ["out"])) ∧
      (s ≠ "into" → s ≠ "over" → s ≠ "out" →
        handle_debug_step true sa (some v) =
          (StepReply.serror (-32602)
            ("Invalid mode: " ++ s ++ " (expected: into, over, out)"), []))) := by
  subst hsa
  refine ⟨rfl, ?_, ?_⟩
  · intro v hv
    simp only [handle_debug_step, Bool.not_true, Bool.false_eq_true, if_false]
    cases hm : objLookup v "mode" with
    | none => simp [stepSessionMsgs]
    | some mv =>
      cases mv with
      | jstr s => exact absurd hm (hv s)
      | jnull => simp [stepSessionMsgs]
      | jbool b => simp [stepSessionMsgs]
      | jnum q => simp [stepSessionMsgs]
      | jarr xs => simp [stepSessionMsgs]
      | jobj fs => simp [stepSessionMsgs]
  · intro v s hm
    refine ⟨?_, ?_, ?_, ?_⟩
    · rintro rfl
      simp [handle_debug_step, hm, stepSessionMsgs]
    · rintro rfl
      simp [handle_debug_step, hm, stepSessionMsgs]
    · rintro rfl
      simp [handle_debug_step, hm, stepSessionMsgs]
    · intro h1 h2 h3
      simp [handle_debug_step, hm, stepSessionMsgs, h1, h2, h3]

/-- Witness for C10: with a live session, unparseable params step over,
and the explicit mode "sideways" is rejected with −32602. -/
theorem claim_C10_witness :
    handle_debug_step true true none = (StepReply.sok "over", ["next"]) ∧
    handle_debug_step true true
        (some (JValue.jobj [("mode", JValue.jstr "sideways")])) =
      (StepReply.serror (-32602)
        "Invalid mode: sideways (expected: into, over, out)", []) := by
  have h := claim_C10 true rfl
  refine ⟨h.1, ?_⟩
  have h2 := (h.2.2 (JValue.jobj [("mode", JValue.jstr "sideways")]) "sideways"
    rfl).2.2.2 (by decide) (by decide) (by decide)
  simpa using h2

end GodotPeek


